import Mathlib

/-!
Verification of the iterative refinement loop of `FieldspaceSolver`
(`src/copypasta_quantum_engine.py`).

The solver holds an opaque `state`, an operator registry and a memory
trace, and exposes `run_cycle`, which calls a fixed sequence of
collaborator methods (seed generator, state transition, tension
evaluator, pattern analyzer, operator generator) and commits the new
state as its last statement.

Python dynamic values are embedded as `PyVal` (the source manipulates
`None`, numbers and strings); a raised Python exception is embedded as
the `Except.error` branch of `Except PyErr`.  Each collaborator method
of the source is a field of `Collaborators`, so that theorems can
quantify over injected collaborator behaviour; the bodies of the
source's own stub classes (every method body is `pass`, i.e. returns
`None`, and `analyze_geometric_pattern` does not exist, i.e. raises
`AttributeError`) are captured by `sourceCollaborators`.

`run_cycle` additionally records a trace of the collaborator calls it
makes, each event carrying the call's outcome, so that claims about
"is invoked" can be stated; the trace is pure instrumentation and does
not influence control flow.
-/

/-- A Python runtime value, restricted to the shapes the claims need:
`None`, integers and strings. -/
inductive PyVal where
  | none
  | int (n : Int)
  | str (s : String)
  deriving Repr, DecidableEq

/-- A Python exception, as far as the loop distinguishes them:
`TypeError` (unsupported comparison), `AttributeError` (missing method)
and any exception raised by an injected collaborator. -/
inductive PyErr where
  | typeError
  | attributeError
  | other (msg : String)
  deriving Repr, DecidableEq

deriving instance DecidableEq for Except

/-- One collaborator call made during a cycle, with its outcome.
The two `perceive_tension` calls of a cycle appear as two events. -/
inductive CallEvent where
  | get_next_seed (r : Except PyErr PyVal)
  | compute_geodesic_path (r : Except PyErr PyVal)
  | perceive_tension (r : Except PyErr PyVal)
  | evaluate_coherence (r : Except PyErr PyVal)
  | analyze_geometric_pattern (r : Except PyErr PyVal)
  | generate_new_operator (r : Except PyErr PyVal)
  deriving Repr, DecidableEq

/-- The mutable attributes of a `FieldspaceSolver` instance:
`self.state`, `self.operator_library` (a dict) and `self.memory_trace`
(a list), as set up in `__init__`. -/
structure FieldspaceSolver where
  state : PyVal
  operator_library : List (String × PyVal)
  memory_trace : List PyVal
  deriving Repr, DecidableEq

/-- `FieldspaceSolver.__init__(initial_state)`: the state is the given
value, the operator library is the empty dict, the memory trace is the
empty list. -/
def fieldspace_init (initial_state : PyVal) : FieldspaceSolver :=
  { state := initial_state, operator_library := [], memory_trace := [] }

/-- The collaborator methods `run_cycle` dispatches to.  In the source
these live on the engine objects stored in `__init__`; embedding them as
a record lets theorems quantify over injected behaviour.  A method that
raises is modelled by returning `Except.error`. -/
structure Collaborators where
  get_next_seed : Except PyErr PyVal
  compute_geodesic_path : PyVal → PyVal → Except PyErr PyVal
  perceive_tension : PyVal → Except PyErr PyVal
  evaluate_coherence : PyVal → PyVal → Except PyErr PyVal
  analyze_geometric_pattern : PyVal → Except PyErr PyVal
  generate_new_operator : PyVal → Except PyErr PyVal

/-- The Python comparison `fitness_score > 0`: defined on integers,
raises `TypeError` on `None` or a string. -/
def pyGtZero : PyVal → Except PyErr Bool
  | .int n => .ok (decide (0 < n))
  | _ => .error .typeError

/-- Outcome of one `run_cycle` call: the result (`ok` for a normal
return, `error` for a propagated exception), the solver object after the
call, and the trace of collaborator calls made. -/
structure CycleResult where
  res : Except PyErr Unit
  solver : FieldspaceSolver
  trace : List CallEvent
  deriving Repr, DecidableEq

/-- Step 4 of `run_cycle`, second statement: the call
`self.linguistic_core.generate_new_operator(geometric_pattern)`.  The
returned identifier is discarded; afterwards the commit
`self.state = h_next` runs. -/
def evolve_step (c : Collaborators) (s : FieldspaceSolver)
    (h_next geometric_pattern : PyVal) (t : List CallEvent) : CycleResult :=
  match c.generate_new_operator geometric_pattern with
  | .error e => ⟨.error e, s, t ++ [.generate_new_operator (.error e)]⟩
  | .ok r => ⟨.ok (), { s with state := h_next }, t ++ [.generate_new_operator (.ok r)]⟩

/-- Step 4 of `run_cycle`: `if fitness_score > 0:` followed by the
pattern analysis and operator generation, then the commit
`self.state = h_next`. -/
def gating_step (c : Collaborators) (s : FieldspaceSolver)
    (h_next fitness_score : PyVal) (t : List CallEvent) : CycleResult :=
  match pyGtZero fitness_score with
  | .error e => ⟨.error e, s, t⟩
  | .ok false => ⟨.ok (), { s with state := h_next }, t⟩
  | .ok true =>
    match c.analyze_geometric_pattern h_next with
    | .error e => ⟨.error e, s, t ++ [.analyze_geometric_pattern (.error e)]⟩
    | .ok p => evolve_step c s h_next p (t ++ [.analyze_geometric_pattern (.ok p)])

/-- `FieldspaceSolver.run_cycle(x_input)`, line by line: read
`h_current = self.state`, draw a seed, compute
`h_next = compute_geodesic_path(h_current, x_input)`, perceive the two
tensions, evaluate coherence, conditionally analyze and generate an
operator, and finally commit `self.state = h_next`.  Any raising call
exits immediately with that exception and the solver unchanged. -/
def run_cycle (c : Collaborators) (s : FieldspaceSolver) (x_input : PyVal) : CycleResult :=
  match c.get_next_seed with
  | .error e => ⟨.error e, s, [.get_next_seed (.error e)]⟩
  | .ok pi_seed =>
    match c.compute_geodesic_path s.state x_input with
    | .error e => ⟨.error e, s,
        [.get_next_seed (.ok pi_seed), .compute_geodesic_path (.error e)]⟩
    | .ok h_next =>
      match c.perceive_tension s.state with
      | .error e => ⟨.error e, s,
          [.get_next_seed (.ok pi_seed), .compute_geodesic_path (.ok h_next),
           .perceive_tension (.error e)]⟩
      | .ok old_tension =>
        match c.perceive_tension h_next with
        | .error e => ⟨.error e, s,
            [.get_next_seed (.ok pi_seed), .compute_geodesic_path (.ok h_next),
             .perceive_tension (.ok old_tension), .perceive_tension (.error e)]⟩
        | .ok new_tension =>
          match c.evaluate_coherence old_tension new_tension with
          | .error e => ⟨.error e, s,
              [.get_next_seed (.ok pi_seed), .compute_geodesic_path (.ok h_next),
               .perceive_tension (.ok old_tension), .perceive_tension (.ok new_tension),
               .evaluate_coherence (.error e)]⟩
          | .ok fitness_score =>
            gating_step c s h_next fitness_score
              [.get_next_seed (.ok pi_seed), .compute_geodesic_path (.ok h_next),
               .perceive_tension (.ok old_tension), .perceive_tension (.ok new_tension),
               .evaluate_coherence (.ok fitness_score)]

/-- Repeated `run_cycle` attempts with the given inputs: each attempt
continues from the solver object as the previous attempt left it (on a
propagated exception, unchanged).  Returns the final solver and the
per-cycle outcomes. -/
def runCycles (c : Collaborators) (s : FieldspaceSolver) :
    List PyVal → FieldspaceSolver × List CycleResult
  | [] => (s, [])
  | x :: rest =>
    let r := run_cycle c s x
    let (s2, rs) := runCycles c r.solver rest
    (s2, r :: rs)

/-- The collaborator behaviour of the source's own stub classes: every
defined method body is `pass` and so returns `None`;
`analyze_geometric_pattern` is defined nowhere, so the attribute lookup
raises `AttributeError`. -/
def sourceCollaborators : Collaborators where
  get_next_seed := .ok .none
  compute_geodesic_path := fun _ _ => .ok .none
  perceive_tension := fun _ => .ok .none
  evaluate_coherence := fun _ _ => .ok .none
  analyze_geometric_pattern := fun _ => .error .attributeError
  generate_new_operator := fun _ => .ok .none

/-- The deterministic stubs of the spec's scenario: the state transition
returns `current + input`, tension is the state itself, coherence is
`new - old`, pattern analysis is the identity and operator generation
returns a fixed identifier. -/
def stubCollaborators : Collaborators where
  get_next_seed := .ok (.int 0)
  compute_geodesic_path := fun h x =>
    match h, x with
    | .int a, .int b => .ok (.int (a + b))
    | _, _ => .error .typeError
  perceive_tension := fun v => .ok v
  evaluate_coherence := fun o n =>
    match o, n with
    | .int a, .int b => .ok (.int (b - a))
    | _, _ => .error .typeError
  analyze_geometric_pattern := fun v => .ok v
  generate_new_operator := fun _ => .ok (.str "op")

/-- The number of `generate_new_operator` calls recorded in a trace. -/
def genCount (t : List CallEvent) : Nat :=
  (t.filter fun e =>
    match e with
    | .generate_new_operator _ => true
    | _ => false).length

/-- The values successfully returned by `evaluate_coherence` in a
trace (the cycle's fitness scores). -/
def coherenceScores (t : List CallEvent) : List PyVal :=
  t.filterMap fun e =>
    match e with
    | .evaluate_coherence (.ok v) => some v
    | _ => none

/-- The exception raised by a recorded collaborator call, when it
raised one. -/
def eventFailed : CallEvent → Option PyErr
  | .get_next_seed (.error e) => some e
  | .compute_geodesic_path (.error e) => some e
  | .perceive_tension (.error e) => some e
  | .evaluate_coherence (.error e) => some e
  | .analyze_geometric_pattern (.error e) => some e
  | .generate_new_operator (.error e) => some e
  | _ => none

/-- A collaborator bundle whose state transition raises. -/
def boomPathCollab : Collaborators where
  get_next_seed := .ok (.int 0)
  compute_geodesic_path := fun _ _ => .error (.other "boom")
  perceive_tension := fun v => .ok v
  evaluate_coherence := fun _ _ => .ok (.int 1)
  analyze_geometric_pattern := fun v => .ok v
  generate_new_operator := fun _ => .ok (.str "op")

/-- A collaborator bundle with a strictly positive fitness score whose
pattern analysis raises `AttributeError`, as the source's own
`analyze_geometric_pattern` lookup does. -/
def analyzeFailCollab : Collaborators where
  get_next_seed := .ok .none
  compute_geodesic_path := fun _ _ => .ok .none
  perceive_tension := fun v => .ok v
  evaluate_coherence := fun _ _ => .ok (.int 1)
  analyze_geometric_pattern := fun _ => .error .attributeError
  generate_new_operator := fun _ => .ok (.str "op")

/-- Like `analyzeFailCollab` but with distinct return values, used to
exercise the missing-analyzer abort. -/
def missingAnalyzeCollab : Collaborators where
  get_next_seed := .ok .none
  compute_geodesic_path := fun _ _ => .ok (.int 2)
  perceive_tension := fun v => .ok v
  evaluate_coherence := fun _ _ => .ok (.int 3)
  analyze_geometric_pattern := fun _ => .error .attributeError
  generate_new_operator := fun _ => .ok (.str "w")

/-- `stubCollaborators` with a different seed value. -/
def stubCollaboratorsSeed7 : Collaborators :=
  { stubCollaborators with get_next_seed := .ok (.int 7) }

lemma gating_step_library (c : Collaborators) (s : FieldspaceSolver)
    (hn fs : PyVal) (t : List CallEvent) :
    (gating_step c s hn fs t).solver.operator_library = s.operator_library := by
  unfold gating_step evolve_step
  (repeat' split) <;> rfl

lemma run_cycle_library (c : Collaborators) (s : FieldspaceSolver) (x : PyVal) :
    (run_cycle c s x).solver.operator_library = s.operator_library := by
  unfold run_cycle
  (repeat' split) <;> first | rfl | apply gating_step_library

lemma runCycles_library (c : Collaborators) (xs : List PyVal) (s : FieldspaceSolver) :
    (runCycles c s xs).1.operator_library = s.operator_library := by
  induction xs generalizing s with
  | nil => rfl
  | cons x rest ih =>
    simp only [runCycles]
    rw [ih, run_cycle_library]

lemma gating_step_memory (c : Collaborators) (s : FieldspaceSolver)
    (hn fs : PyVal) (t : List CallEvent) :
    (gating_step c s hn fs t).solver.memory_trace = s.memory_trace := by
  unfold gating_step evolve_step
  (repeat' split) <;> rfl

lemma run_cycle_memory (c : Collaborators) (s : FieldspaceSolver) (x : PyVal) :
    (run_cycle c s x).solver.memory_trace = s.memory_trace := by
  unfold run_cycle
  (repeat' split) <;> first | rfl | apply gating_step_memory

lemma runCycles_memory (c : Collaborators) (xs : List PyVal) (s : FieldspaceSolver) :
    (runCycles c s xs).1.memory_trace = s.memory_trace := by
  induction xs generalizing s with
  | nil => rfl
  | cons x rest ih =>
    simp only [runCycles]
    rw [ih, run_cycle_memory]

/-- Claim C1: if any collaborator call made during a `run_cycle` cycle
raises an exception `e`, that exception propagates to the caller as the
cycle's result and the solver object (in particular `self.state`) is
left exactly as it was before the call: the commit is never reached on
failure. -/
theorem run_cycle_atomic_on_collaborator_failure (c : Collaborators)
    (s : FieldspaceSolver) (x : PyVal) (e : PyErr)
    (hfail : e ∈ (run_cycle c s x).trace.filterMap eventFailed) :
    (run_cycle c s x).res = .error e ∧ (run_cycle c s x).solver = s := by
  revert hfail
  unfold run_cycle gating_step evolve_step
  (repeat' split) <;> intro hfail <;>
    simp only [List.filterMap_cons, List.filterMap_append, List.filterMap_nil,
      eventFailed, List.mem_singleton, List.mem_append, List.not_mem_nil,
      List.mem_cons, or_false, false_or] at hfail <;>
    (try subst hfail) <;> exact ⟨rfl, rfl⟩

/-- Witness for C1: a state transition that raises `other "boom"`. -/
theorem run_cycle_atomic_on_collaborator_failure_witness :
    PyErr.other "boom" ∈
      (run_cycle boomPathCollab (fieldspace_init (.int 5)) (.int 1)).trace.filterMap eventFailed
    ∧ ((run_cycle boomPathCollab (fieldspace_init (.int 5)) (.int 1)).res
         = .error (.other "boom")
       ∧ (run_cycle boomPathCollab (fieldspace_init (.int 5)) (.int 1)).solver
         = fieldspace_init (.int 5)) :=
  ⟨by decide,
   run_cycle_atomic_on_collaborator_failure boomPathCollab
     (fieldspace_init (.int 5)) (.int 1) (.other "boom") (by decide)⟩

/-- Claim C2: whenever `run_cycle` returns normally, the committed state
is exactly the value `compute_geodesic_path(h_current, x_input)`
returned in that cycle, and the loop mutates nothing else of the solver
(operator library and memory trace are untouched). -/
theorem run_cycle_commits_geodesic_path (c : Collaborators)
    (s : FieldspaceSolver) (x : PyVal)
    (hok : (run_cycle c s x).res = .ok ()) :
    c.compute_geodesic_path s.state x = .ok ((run_cycle c s x).solver.state)
    ∧ (run_cycle c s x).solver.operator_library = s.operator_library
    ∧ (run_cycle c s x).solver.memory_trace = s.memory_trace := by
  revert hok
  unfold run_cycle gating_step evolve_step
  (repeat' split) <;> intro hok <;> simp_all

/-- Witness for C2: the deterministic stubs commit `0 + 1 = 1`. -/
theorem run_cycle_commits_geodesic_path_witness :
    (run_cycle stubCollaborators (fieldspace_init (.int 0)) (.int 1)).res = .ok ()
    ∧ (stubCollaborators.compute_geodesic_path (fieldspace_init (.int 0)).state (.int 1)
        = .ok ((run_cycle stubCollaborators (fieldspace_init (.int 0)) (.int 1)).solver.state)
      ∧ (run_cycle stubCollaborators (fieldspace_init (.int 0)) (.int 1)).solver.operator_library
        = (fieldspace_init (.int 0)).operator_library
      ∧ (run_cycle stubCollaborators (fieldspace_init (.int 0)) (.int 1)).solver.memory_trace
        = (fieldspace_init (.int 0)).memory_trace) :=
  ⟨by decide,
   run_cycle_commits_geodesic_path stubCollaborators (fieldspace_init (.int 0)) (.int 1)
     (by decide)⟩

/-- Claim C7: the operator library is the empty dict at construction,
`run_cycle` never writes to it (the generated identifier is discarded),
and after any number of cycles it is still exactly as constructed. -/
theorem operator_library_never_written (c : Collaborators) (v x : PyVal)
    (xs : List PyVal) (s : FieldspaceSolver) :
    (fieldspace_init v).operator_library = []
    ∧ (run_cycle c s x).solver.operator_library = s.operator_library
    ∧ (runCycles c (fieldspace_init v) xs).1.operator_library = [] :=
  ⟨rfl, run_cycle_library c s x, by rw [runCycles_library]; rfl⟩

/-- Claim C10: the memory trace is the empty list at construction and no
operation of the solver ever modifies it; after any number of cycles it
is still empty. -/
theorem memory_trace_never_written (c : Collaborators) (v x : PyVal)
    (xs : List PyVal) (s : FieldspaceSolver) :
    (fieldspace_init v).memory_trace = []
    ∧ (run_cycle c s x).solver.memory_trace = s.memory_trace
    ∧ (runCycles c (fieldspace_init v) xs).1.memory_trace = [] :=
  ⟨rfl, run_cycle_memory c s x, by rw [runCycles_memory]; rfl⟩

lemma run_cycle_source_solver (s : FieldspaceSolver) (x : PyVal) :
    (run_cycle sourceCollaborators s x).solver = s := rfl

lemma runCycles_source_solver (xs : List PyVal) (s : FieldspaceSolver) :
    (runCycles sourceCollaborators s xs).1 = s := by
  induction xs generalizing s with
  | nil => rfl
  | cons x rest ih =>
    simp only [runCycles]
    rw [run_cycle_source_solver, ih]

/-- Claim C9: with the collaborator behaviour of the source's own stub
classes (every method returns `None`), every `run_cycle` call raises
`TypeError` at the comparison `fitness_score > 0`, no cycle reaches the
commit, and the state stays at the constructor-supplied value after any
number of attempts. -/
theorem source_stubs_always_typeerror (s : FieldspaceSolver) (x v : PyVal)
    (xs : List PyVal) :
    (run_cycle sourceCollaborators s x).res = .error .typeError
    ∧ (run_cycle sourceCollaborators s x).solver = s
    ∧ (runCycles sourceCollaborators (fieldspace_init v) xs).1.state = v :=
  ⟨rfl, rfl, by rw [runCycles_source_solver]; rfl⟩

lemma run_cycle_eval_eq (c : Collaborators) (s : FieldspaceSolver)
    (x sd hn ot nt fs : PyVal)
    (hseed : c.get_next_seed = .ok sd)
    (hpath : c.compute_geodesic_path s.state x = .ok hn)
    (hot : c.perceive_tension s.state = .ok ot)
    (hnt : c.perceive_tension hn = .ok nt)
    (hfit : c.evaluate_coherence ot nt = .ok fs) :
    run_cycle c s x = gating_step c s hn fs
      [.get_next_seed (.ok sd), .compute_geodesic_path (.ok hn),
       .perceive_tension (.ok ot), .perceive_tension (.ok nt),
       .evaluate_coherence (.ok fs)] := by
  unfold run_cycle
  simp only [hseed, hpath, hot, hnt, hfit]

lemma pyGtZero_false (n : Int) (h : n ≤ 0) : pyGtZero (.int n) = .ok false := by
  simp only [pyGtZero, Except.ok.injEq]
  exact decide_eq_false (by omega)

lemma pyGtZero_true (n : Int) (h : 0 < n) : pyGtZero (.int n) = .ok true := by
  simp only [pyGtZero, Except.ok.injEq]
  exact decide_eq_true h

/-- Claim C3: in a cycle whose collaborator calls succeed and whose
`evaluate_coherence` returns an integer score `n ≤ 0` (zero included),
`generate_new_operator` is never invoked. -/
theorem nonpositive_fitness_no_generation (c : Collaborators)
    (s : FieldspaceSolver) (x sd hn ot nt : PyVal) (n : Int)
    (hseed : c.get_next_seed = .ok sd)
    (hpath : c.compute_geodesic_path s.state x = .ok hn)
    (hot : c.perceive_tension s.state = .ok ot)
    (hnt : c.perceive_tension hn = .ok nt)
    (hfit : c.evaluate_coherence ot nt = .ok (.int n))
    (hle : n ≤ 0) :
    genCount (run_cycle c s x).trace = 0 := by
  rw [run_cycle_eval_eq c s x sd hn ot nt (.int n) hseed hpath hot hnt hfit]
  unfold gating_step
  rw [pyGtZero_false n hle]
  rfl

/-- Witness for C3: the deterministic stubs with input `0` from state
`0` give fitness exactly `0`, which does not trigger generation. -/
theorem nonpositive_fitness_no_generation_witness :
    stubCollaborators.evaluate_coherence (.int 0) (.int 0) = .ok (.int 0)
    ∧ (0 : Int) ≤ 0
    ∧ genCount (run_cycle stubCollaborators (fieldspace_init (.int 0)) (.int 0)).trace = 0 :=
  ⟨rfl, by decide,
   nonpositive_fitness_no_generation stubCollaborators (fieldspace_init (.int 0))
     (.int 0) (.int 0) (.int 0) (.int 0) (.int 0) 0 rfl rfl rfl rfl rfl (by decide)⟩

/-- Claim C4 as stated is falsified by the code: with a strictly
positive fitness score but a pattern-analysis call that raises (as the
source's own missing `analyze_geometric_pattern` does), the cycle
aborts before `generate_new_operator`, which is therefore invoked zero
times, not exactly once. -/
theorem positive_fitness_generation_counterexample :
    analyzeFailCollab.evaluate_coherence PyVal.none PyVal.none = .ok (.int 1)
    ∧ (0 : Int) < 1
    ∧ ¬ genCount (run_cycle analyzeFailCollab (fieldspace_init .none) .none).trace = 1 := by
  decide

/-- Claim C4 (amended): in a cycle whose collaborator calls succeed,
whose `evaluate_coherence` returns an integer score `n > 0`, and whose
subsequent `analyze_geometric_pattern` call succeeds,
`generate_new_operator` is invoked exactly once (whether or not it
itself succeeds). -/
theorem positive_fitness_generates_exactly_once (c : Collaborators)
    (s : FieldspaceSolver) (x sd hn ot nt p : PyVal) (n : Int)
    (hseed : c.get_next_seed = .ok sd)
    (hpath : c.compute_geodesic_path s.state x = .ok hn)
    (hot : c.perceive_tension s.state = .ok ot)
    (hnt : c.perceive_tension hn = .ok nt)
    (hfit : c.evaluate_coherence ot nt = .ok (.int n))
    (hpos : 0 < n)
    (hana : c.analyze_geometric_pattern hn = .ok p) :
    genCount (run_cycle c s x).trace = 1 := by
  rw [run_cycle_eval_eq c s x sd hn ot nt (.int n) hseed hpath hot hnt hfit]
  unfold gating_step
  simp only [pyGtZero_true n hpos, hana]
  unfold evolve_step
  split <;> rfl

/-- Witness for the amended C4: the deterministic stubs with input `1`
from state `0` give fitness `1` and one generation call. -/
theorem positive_fitness_generates_exactly_once_witness :
    stubCollaborators.evaluate_coherence (.int 0) (.int 1) = .ok (.int 1)
    ∧ (0 : Int) < 1
    ∧ genCount (run_cycle stubCollaborators (fieldspace_init (.int 0)) (.int 1)).trace = 1 :=
  ⟨rfl, by decide,
   positive_fitness_generates_exactly_once stubCollaborators (fieldspace_init (.int 0))
     (.int 1) (.int 0) (.int 1) (.int 0) (.int 1) (.int 1) 1
     rfl rfl rfl rfl rfl (by decide) rfl⟩

/-- Claim C5: when the pattern-analysis attribute is missing (every
lookup of `analyze_geometric_pattern` raises `AttributeError`, as in the
source, where `PerceptionAndEvaluationEngine` defines only
`perceive_tension` and `evaluate_coherence`), every cycle with a
strictly positive fitness score fails at that call with
`AttributeError`, before `generate_new_operator` is invoked and before
the commit. -/
theorem missing_analyze_aborts_before_generation (c : Collaborators)
    (s : FieldspaceSolver) (x sd hn ot nt : PyVal) (n : Int)
    (hmiss : ∀ v, c.analyze_geometric_pattern v = .error .attributeError)
    (hseed : c.get_next_seed = .ok sd)
    (hpath : c.compute_geodesic_path s.state x = .ok hn)
    (hot : c.perceive_tension s.state = .ok ot)
    (hnt : c.perceive_tension hn = .ok nt)
    (hfit : c.evaluate_coherence ot nt = .ok (.int n))
    (hpos : 0 < n) :
    (run_cycle c s x).res = .error .attributeError
    ∧ genCount (run_cycle c s x).trace = 0
    ∧ (run_cycle c s x).solver = s := by
  rw [run_cycle_eval_eq c s x sd hn ot nt (.int n) hseed hpath hot hnt hfit]
  unfold gating_step
  rw [pyGtZero_true n hpos, hmiss hn]
  exact ⟨rfl, rfl, rfl⟩

/-- Witness for C5: concrete collaborators with fitness `3` and the
missing analyzer abort with `AttributeError` and an unchanged solver. -/
theorem missing_analyze_aborts_before_generation_witness :
    missingAnalyzeCollab.analyze_geometric_pattern (.int 2) = .error .attributeError
    ∧ ((run_cycle missingAnalyzeCollab (fieldspace_init (.int 0)) (.int 9)).res
        = .error .attributeError
      ∧ genCount (run_cycle missingAnalyzeCollab (fieldspace_init (.int 0)) (.int 9)).trace = 0
      ∧ (run_cycle missingAnalyzeCollab (fieldspace_init (.int 0)) (.int 9)).solver
        = fieldspace_init (.int 0)) :=
  ⟨rfl,
   missing_analyze_aborts_before_generation missingAnalyzeCollab
     (fieldspace_init (.int 0)) (.int 9) .none (.int 2) (.int 0) (.int 2) 3
     (fun _ => rfl) rfl rfl rfl rfl rfl (by decide)⟩

/-- Claim C6: with the deterministic stubs (`compute_geodesic_path`
returns `current + input`, `evaluate_coherence` returns `new - old`),
three cycles with inputs `1, 2, 3` from initial state `0` return
normally, commit states `1, 3, 6`, produce fitness scores `1, 2, 3`,
and trigger operator generation exactly once per cycle. -/
theorem deterministic_stub_three_cycles :
    ((runCycles stubCollaborators (fieldspace_init (.int 0)) [.int 1, .int 2, .int 3]).2.map
        fun r => r.solver.state) = [.int 1, .int 3, .int 6]
    ∧ ((runCycles stubCollaborators (fieldspace_init (.int 0)) [.int 1, .int 2, .int 3]).2.map
        fun r => coherenceScores r.trace) = [[.int 1], [.int 2], [.int 3]]
    ∧ ((runCycles stubCollaborators (fieldspace_init (.int 0)) [.int 1, .int 2, .int 3]).2.map
        fun r => r.res) = [.ok (), .ok (), .ok ()]
    ∧ ((runCycles stubCollaborators (fieldspace_init (.int 0)) [.int 1, .int 2, .int 3]).2.map
        fun r => genCount r.trace) = [1, 1, 1]
    ∧ (runCycles stubCollaborators (fieldspace_init (.int 0)) [.int 1, .int 2, .int 3]).1.state
        = .int 6 := by
  decide

/-- Claim C8: the seed drawn at the start of a cycle is never consumed:
two executions whose collaborators agree everywhere except in the seed
value successfully returned produce the same result, the same solver
(same committed state) and the same trace of downstream calls. -/
theorem seed_value_noninterference (c c2 : Collaborators)
    (s : FieldspaceSolver) (x a b : PyVal)
    (ha : c.get_next_seed = .ok a) (hb : c2.get_next_seed = .ok b)
    (hpath : c.compute_geodesic_path = c2.compute_geodesic_path)
    (htens : c.perceive_tension = c2.perceive_tension)
    (hcoh : c.evaluate_coherence = c2.evaluate_coherence)
    (hana : c.analyze_geometric_pattern = c2.analyze_geometric_pattern)
    (hgen : c.generate_new_operator = c2.generate_new_operator) :
    (run_cycle c s x).res = (run_cycle c2 s x).res
    ∧ (run_cycle c s x).solver = (run_cycle c2 s x).solver
    ∧ (run_cycle c s x).trace.drop 1 = (run_cycle c2 s x).trace.drop 1 := by
  unfold run_cycle gating_step evolve_step
  simp only [ha, hb, hpath, htens, hcoh, hana, hgen]
  (repeat' split) <;> simp_all

/-- Witness for C8: the deterministic stubs with seed `0` versus seed
`7` behave identically downstream. -/
theorem seed_value_noninterference_witness :
    stubCollaborators.get_next_seed = .ok (.int 0)
    ∧ stubCollaboratorsSeed7.get_next_seed = .ok (.int 7)
    ∧ ((run_cycle stubCollaborators (fieldspace_init (.int 0)) (.int 1)).res
        = (run_cycle stubCollaboratorsSeed7 (fieldspace_init (.int 0)) (.int 1)).res
      ∧ (run_cycle stubCollaborators (fieldspace_init (.int 0)) (.int 1)).solver
        = (run_cycle stubCollaboratorsSeed7 (fieldspace_init (.int 0)) (.int 1)).solver
      ∧ (run_cycle stubCollaborators (fieldspace_init (.int 0)) (.int 1)).trace.drop 1
        = (run_cycle stubCollaboratorsSeed7 (fieldspace_init (.int 0)) (.int 1)).trace.drop 1) :=
  ⟨rfl, rfl,
   seed_value_noninterference stubCollaborators stubCollaboratorsSeed7
     (fieldspace_init (.int 0)) (.int 1) (.int 0) (.int 7)
     rfl rfl rfl rfl rfl rfl rfl⟩
